import Mathlib

/-!
Verification development for the mirai-modeling-tools Blender addon
(file src/mirai-modeling-tools/__init__.py).

The addon bakes a contact-shadow texture for a mesh object: it builds a
ground plane and a ring of sun lights, bakes a shadow pass into a 128x128
RGBA image, post-processes that image into a binary alpha mask, and exports
object plus plane as a GLB file.

Shallow embedding conventions:
- Python floats are embedded as exact rationals; the light placement, which
  uses trigonometry, is embedded over the reals.
- Host (Blender) API calls are external collaborators; where a claim depends
  on their effect, the effect is modelled from the documented semantics and
  noted at the definition.
- Fallible code is embedded with Except; code paths that raise propagate an
  error value.
-/

/-! ## Image post-processor

The post-processing loop at lines 356-365 of make_shadow_plane, repeated
verbatim at lines 487-498 of OBJECT_OT_bake_shadow_texture.execute, walks the
flat pixel buffer [r, g, b, a, r, g, b, a, ...] with stride 4 and rewrites
each group to [0, 0, 0, 1 - max(r, g, b)].
-/

/-- One RGBA pixel; the addon stores each channel as a float in [0, 1],
embedded as an exact rational. -/
structure Pixel where
  r : ℚ
  g : ℚ
  b : ℚ
  a : ℚ
deriving DecidableEq

/-- The flat buffer img.pixels, as the source stores it: a pixel list
rendered as [r, g, b, a, r, g, b, a, ...]. -/
def flattenPixels : List Pixel → List ℚ
  | [] => []
  | p :: t => p.r :: p.g :: p.b :: p.a :: flattenPixels t

/-- The post-processing loop (lines 356-362 and 487-494): a stride-4 walk of
the flat buffer that sets r, g, b to 0 and a to 1 - max(r, g, b). The input
alpha is read into the loop variables but never used. A trailing group of
fewer than four floats never occurs for an image buffer. -/
def binarize : List ℚ → List ℚ
  | r :: g :: b :: _a :: rest => 0 :: 0 :: 0 :: (1 - max r (max g b)) :: binarize rest
  | l => l

/-- The per-pixel transform the loop body performs on one RGBA group. -/
def binarizePixel (p : Pixel) : Pixel :=
  { r := 0, g := 0, b := 0, a := 1 - max p.r (max p.g p.b) }

/-- The RGB part of a pixel, used to state alpha independence. -/
def rgbOf (p : Pixel) : ℚ × ℚ × ℚ :=
  (p.r, p.g, p.b)

theorem binarize_eq_map (img : List Pixel) :
    binarize (flattenPixels img) = flattenPixels (img.map binarizePixel) := by
  induction img with
  | nil => rfl
  | cons p t ih => simp [flattenPixels, binarize, binarizePixel, ih]

/-- C1: the post-processing step sets every output RGB to (0,0,0) and the
output alpha to 1 - max(r, g, b) of the input channels; the output alpha lies
in [0, 1] whenever the input channels lie in [0, 1]; and the whole pass is the
pointwise, order-independent map of the per-pixel transform over the buffer. -/
theorem binarize_pointwise_and_range (img : List Pixel)
    (hin : ∀ p ∈ img, 0 ≤ p.r ∧ p.r ≤ 1 ∧ 0 ≤ p.g ∧ p.g ≤ 1 ∧ 0 ≤ p.b ∧ p.b ≤ 1) :
    binarize (flattenPixels img) = flattenPixels (img.map binarizePixel)
      ∧ ∀ p ∈ img,
          (binarizePixel p).r = 0 ∧ (binarizePixel p).g = 0 ∧ (binarizePixel p).b = 0
            ∧ (binarizePixel p).a = 1 - max p.r (max p.g p.b)
            ∧ 0 ≤ (binarizePixel p).a ∧ (binarizePixel p).a ≤ 1 := by
  refine ⟨binarize_eq_map img, fun p hp => ?_⟩
  obtain ⟨hr0, hr1, hg0, hg1, hb0, hb1⟩ := hin p hp
  exact ⟨rfl, rfl, rfl, rfl,
    sub_nonneg.mpr (max_le hr1 (max_le hg1 hb1)),
    sub_le_self 1 (le_trans hr0 (le_max_left _ _))⟩

/-- Witness for C1 at the spec scenario pixel (0.9, 0.9, 0.9, 1.0), whose
post-processed value is (0, 0, 0, 0.1). -/
theorem binarize_pointwise_and_range_witness :
    (binarize (flattenPixels [⟨9/10, 9/10, 9/10, 1⟩])
        = flattenPixels ([⟨9/10, 9/10, 9/10, 1⟩].map binarizePixel))
      ∧ (binarizePixel ⟨9/10, 9/10, 9/10, 1⟩).r = 0
      ∧ 0 ≤ (binarizePixel ⟨9/10, 9/10, 9/10, 1⟩).a
      ∧ (binarizePixel ⟨9/10, 9/10, 9/10, 1⟩).a = 1/10 := by
  have h := binarize_pointwise_and_range [⟨9/10, 9/10, 9/10, 1⟩]
    (by intro p hp; simp only [List.mem_singleton] at hp; subst hp; norm_num)
  obtain ⟨h1, h2⟩ := h
  obtain ⟨hr, _, _, _, ha0, _⟩ := h2 ⟨9/10, 9/10, 9/10, 1⟩ (by simp)
  refine ⟨h1, hr, ha0, ?_⟩
  show 1 - max (9/10 : ℚ) (max (9/10) (9/10)) = 1/10
  norm_num

/-- C6 counterexample: the pixel (1,1,1,1) is in the binary set the claim
describes, binarize maps it to (0,0,0,0), but a second application of
binarize turns (0,0,0,0) into (0,0,0,1), so on the one-pixel image
[(1,1,1,1)] the second pass differs from the first. -/
theorem binarize_second_pass_differs :
    binarizePixel (Pixel.mk 1 1 1 1) = ⟨0, 0, 0, 0⟩
      ∧ binarize (binarize (flattenPixels [⟨1, 1, 1, 1⟩]))
          ≠ binarize (flattenPixels [⟨1, 1, 1, 1⟩]) := by
  constructor
  · simp [binarizePixel]
  · simp [binarize, flattenPixels]

/-- C6 amended: binarize is idempotent on images all of whose pixels are
(0, 0, 0, 1) (opaque black, the shadowed output value): one pass returns the
image unchanged, so a second pass yields the same image as the first. The
restriction is forced: on the other binary value, binarize((1,1,1,1)) =
(0,0,0,0), a second pass yields (0,0,0,1). -/
theorem binarize_idempotent_on_opaque_black (img : List Pixel)
    (h : ∀ p ∈ img, p = ⟨0, 0, 0, 1⟩) :
    binarize (flattenPixels img) = flattenPixels img
      ∧ binarize (binarize (flattenPixels img)) = binarize (flattenPixels img) := by
  have hone : binarize (flattenPixels img) = flattenPixels img := by
    induction img with
    | nil => rfl
    | cons p t ih =>
      have hp : p = ⟨0, 0, 0, 1⟩ := h p (by simp)
      have ht : ∀ q ∈ t, q = (⟨0, 0, 0, 1⟩ : Pixel) := fun q hq => h q (by simp [hq])
      subst hp
      simpa [flattenPixels, binarize] using ih ht
  exact ⟨hone, by rw [hone]; exact hone⟩

/-- Witness for C6 amended at the one-pixel all-(0,0,0,1) image. -/
theorem binarize_idempotent_on_opaque_black_witness :
    binarize (flattenPixels [⟨0, 0, 0, 1⟩]) = flattenPixels [⟨0, 0, 0, 1⟩]
      ∧ binarize (binarize (flattenPixels [⟨0, 0, 0, 1⟩]))
          = binarize (flattenPixels [⟨0, 0, 0, 1⟩]) :=
  binarize_idempotent_on_opaque_black [⟨0, 0, 0, 1⟩] (by simp)

/-- C10: the post-processing output never depends on the input alpha channel.
Two buffers that agree on every RGB triple (and thus have the same pixel
count) but carry arbitrary alpha channels binarize to identical buffers. -/
theorem binarize_ignores_alpha (img1 img2 : List Pixel)
    (h : img1.map rgbOf = img2.map rgbOf) :
    binarize (flattenPixels img1) = binarize (flattenPixels img2) := by
  induction img1 generalizing img2 with
  | nil =>
    cases img2 with
    | nil => rfl
    | cons q t => simp [rgbOf] at h
  | cons p t ih =>
    cases img2 with
    | nil => simp [rgbOf] at h
    | cons q u =>
      simp only [List.map_cons, List.cons.injEq] at h
      obtain ⟨hpq, htu⟩ := h
      have hr : p.r = q.r := congrArg (fun x => x.1) hpq
      have hg : p.g = q.g := congrArg (fun x => x.2.1) hpq
      have hb : p.b = q.b := congrArg (fun x => x.2.2) hpq
      simp [flattenPixels, binarize, hr, hg, hb, ih u htu]

/-- Witness for C10: two one-pixel buffers with equal RGB and different alpha
binarize identically. -/
theorem binarize_ignores_alpha_witness :
    binarize (flattenPixels [⟨1/2, 0, 1, 0⟩]) = binarize (flattenPixels [⟨1/2, 0, 1, 1⟩]) :=
  binarize_ignores_alpha [⟨1/2, 0, 1, 0⟩] [⟨1/2, 0, 1, 1⟩] (by simp [rgbOf])

/-! ## Geometry utilities and plane synthesis

world_bbox_corners, bbox_min_max_z, compute_radius_from_dimensions (lines
186-199), create_plane_at (lines 201-221) and the side-length computation of
make_shadow_plane (lines 325-335), repeated at lines 440-446 of
OBJECT_OT_bake_shadow_texture.execute. The world transform is an affine map
(a 3x3 linear part plus a translation), and the Blender bound_box is the list
of the 8 local bounding-box corners.
-/

/-- A point or vector in 3-space over exact rationals. -/
structure V3 where
  x : ℚ
  y : ℚ
  z : ℚ
deriving DecidableEq

/-- An affine world transform: three linear rows plus a translation, so
matrix_world applied to v is (r1 . v, r2 . v, r3 . v) + t, and
matrix_world.translation is t. -/
structure Affine where
  r1 : V3
  r2 : V3
  r3 : V3
  t : V3
deriving DecidableEq

/-- Dot product of two 3-vectors. -/
def dot3 (a v : V3) : ℚ :=
  a.x * v.x + a.y * v.y + a.z * v.z

/-- Application of the affine world transform to a local point (mat @ corner). -/
def applyAffine (m : Affine) (v : V3) : V3 :=
  ⟨dot3 m.r1 v + m.t.x, dot3 m.r2 v + m.t.y, dot3 m.r3 v + m.t.z⟩

/-- The Python builtin min over a list; a real call site never passes an
empty list (bound_box always has 8 corners), where Python would raise, so the
empty case carries an arbitrary value. -/
def pyMin (d : ℚ) : List ℚ → ℚ
  | [] => d
  | x :: xs => xs.foldl min x

/-- The Python builtin max over a list, same convention as pyMin. -/
def pyMax (d : ℚ) : List ℚ → ℚ
  | [] => d
  | x :: xs => xs.foldl max x

/-- A mesh object as the geometry utilities read it: its name, its local
bounding-box corners (obj.bound_box, 8 points), its world transform and its
world-space dimensions (obj.dimensions). -/
structure MeshObj where
  name : String
  boundBox : List V3
  matrixWorld : Affine
  dimX : ℚ
  dimY : ℚ
  dimZ : ℚ
deriving DecidableEq

/-- world_bbox_corners (lines 186-189): world-space coordinates of the
bounding-box corners, mat @ corner for each corner. -/
def world_bbox_corners (obj : MeshObj) : List V3 :=
  obj.boundBox.map (applyAffine obj.matrixWorld)

/-- bbox_min_max_z (lines 191-194): (min, max) of the world corner Zs. -/
def bbox_min_max_z (obj : MeshObj) : ℚ × ℚ :=
  let zs := (world_bbox_corners obj).map V3.z
  (pyMin 0 zs, pyMax 0 zs)

/-- compute_radius_from_dimensions (lines 196-199):
max(dims.x, dims.y, dims.z) * 1.2, with the literal 1.2 taken exactly. -/
def compute_radius_from_dimensions (obj : MeshObj) : ℚ :=
  max obj.dimX (max obj.dimY obj.dimZ) * (6/5)

/-- The generated shadow plane as create_plane_at leaves it: its name, the
object scale it was given (baked into the mesh by the final
transform_apply(scale=True), which leaves location untouched), and its world
location. -/
structure Plane where
  name : String
  scale : V3
  location : V3
deriving DecidableEq

/-- create_plane_at (lines 201-221): adds a unit plane primitive, scales it
by side_length / 2, and places it at the objects world X/Y translation and at
the minimum world bounding-box Z. -/
def create_plane_at (obj : MeshObj) (side_length : ℚ) : Plane :=
  let scale_factor := side_length / 2
  let bbox_min_z := (bbox_min_max_z obj).1
  let world_center := obj.matrixWorld.t
  { name := obj.name ++ "_shadow_plane"
    scale := ⟨scale_factor, scale_factor, 1⟩
    location := ⟨world_center.x, world_center.y, bbox_min_z⟩ }

/-- The side-length computation shared by make_shadow_plane (lines 329-333)
and OBJECT_OT_bake_shadow_texture.execute (lines 440-444):
side_len = radius * 4.0, replaced by 1.0 only when side_len <= 0.0. -/
def make_shadow_plane_side (obj : MeshObj) : ℚ :=
  let radius := compute_radius_from_dimensions obj
  let side_len := radius * 4
  if side_len ≤ 0 then 1 else side_len

/-- The plane make_shadow_plane (lines 325-335) creates; the image, material,
bake trigger and pixel pass the function also performs are modelled in the
post-processor and export sections. -/
def make_shadow_plane (obj : MeshObj) : Plane :=
  create_plane_at obj (make_shadow_plane_side obj)

/-- The plane OBJECT_OT_bake_shadow_texture.execute (lines 440-446) creates:
the same radius, clamp and create_plane_at call as make_shadow_plane. -/
def bake_shadow_texture_plane (obj : MeshObj) : Plane :=
  create_plane_at obj (make_shadow_plane_side obj)

/-- The side length as the spec words it, for comparison:
max(4 * estimateRadius, 1.0). -/
def spec_side_length (obj : MeshObj) : ℚ :=
  max (compute_radius_from_dimensions obj * 4) 1

/-- A degenerate-free small object: a 0.1-unit cube. Its computed side
length is 4 * 1.2 * 0.1 = 0.48, strictly between 0 and 1. -/
def tinyObj : MeshObj :=
  { name := "Tiny"
    boundBox := []
    matrixWorld := ⟨⟨1, 0, 0⟩, ⟨0, 1, 0⟩, ⟨0, 0, 1⟩, ⟨0, 0, 0⟩⟩
    dimX := 1/10
    dimY := 1/10
    dimZ := 1/10 }

/-- C2 counterexample: for the 0.1-unit cube the computed side length is
12/25 = 0.48; the code keeps it (the clamp fires only at <= 0), while
max(4 * estimateRadius, 1.0) = 1, so the side length is not clamped to a
minimum of 1.0 whenever the computed value is smaller than 1. -/
theorem shadow_plane_side_not_clamped_below_one :
    make_shadow_plane_side tinyObj = 12/25
      ∧ make_shadow_plane_side tinyObj < 1
      ∧ spec_side_length tinyObj = 1
      ∧ make_shadow_plane_side tinyObj ≠ spec_side_length tinyObj := by
  have h1 : make_shadow_plane_side tinyObj = 12/25 := by
    show (if (max (1/10 : ℚ) (max (1/10) (1/10)) * (6/5)) * 4 ≤ 0 then 1
          else (max (1/10 : ℚ) (max (1/10) (1/10)) * (6/5)) * 4) = 12/25
    norm_num
  have h3 : spec_side_length tinyObj = 1 := by
    show max ((max (1/10 : ℚ) (max (1/10) (1/10)) * (6/5)) * 4) 1 = 1
    norm_num
  refine ⟨h1, by rw [h1]; norm_num, h3, by rw [h1, h3]; norm_num⟩

/-- C2 amended: the side length equals 4 * estimateRadius whenever that value
is positive and is replaced by 1.0 only when it is nonpositive (never for
small positive values); it is therefore positive for every object, never
exceeds the spec formula max(4 * estimateRadius, 1.0), and estimateRadius is
1.2 * max(dimX, dimY, dimZ). -/
theorem shadow_plane_side_clamp_behavior (obj : MeshObj) :
    make_shadow_plane_side obj
        = (if compute_radius_from_dimensions obj * 4 ≤ 0 then 1
           else compute_radius_from_dimensions obj * 4)
      ∧ 0 < make_shadow_plane_side obj
      ∧ make_shadow_plane_side obj ≤ spec_side_length obj
      ∧ compute_radius_from_dimensions obj
          = max obj.dimX (max obj.dimY obj.dimZ) * (6/5) := by
  refine ⟨rfl, ?_, ?_, rfl⟩
  · unfold make_shadow_plane_side
    by_cases h : compute_radius_from_dimensions obj * 4 ≤ 0
    · simp [h]
    · simp only [h, if_false]
      linarith [not_le.mp h]
  · unfold make_shadow_plane_side spec_side_length
    by_cases h : compute_radius_from_dimensions obj * 4 ≤ 0
    · simp [h]
    · simp only [h, if_false]
      exact le_max_left _ _

theorem foldl_min_le_init (l : List ℚ) (a : ℚ) : l.foldl min a ≤ a := by
  induction l generalizing a with
  | nil => exact le_refl a
  | cons x xs ih => exact le_trans (ih (min a x)) (min_le_left a x)

theorem foldl_min_le_mem (l : List ℚ) (x : ℚ) (hx : x ∈ l) :
    ∀ a : ℚ, l.foldl min a ≤ x := by
  induction l with
  | nil => cases hx
  | cons y ys ih =>
    intro a
    rcases List.mem_cons.mp hx with h | h
    · subst h
      exact le_trans (foldl_min_le_init ys (min a x)) (min_le_right a x)
    · exact ih h (min a y)

theorem foldl_min_mem (l : List ℚ) (a : ℚ) : l.foldl min a = a ∨ l.foldl min a ∈ l := by
  induction l generalizing a with
  | nil => exact Or.inl rfl
  | cons x xs ih =>
    have hfold : (x :: xs).foldl min a = xs.foldl min (min a x) := rfl
    rcases ih (min a x) with h | h
    · rcases min_cases a x with ⟨hm, _⟩ | ⟨hm, _⟩
      · exact Or.inl (by rw [hfold, h, hm])
      · refine Or.inr ?_
        rw [hfold, h, hm]
        exact List.mem_cons_self x xs
    · exact Or.inr (by rw [hfold]; exact List.mem_cons_of_mem x h)

theorem pyMin_le (l : List ℚ) (d x : ℚ) (hx : x ∈ l) : pyMin d l ≤ x := by
  cases l with
  | nil => cases hx
  | cons y ys =>
    rcases List.mem_cons.mp hx with h | h
    · subst h
      exact foldl_min_le_init ys x
    · exact foldl_min_le_mem ys x h y

theorem pyMin_mem (l : List ℚ) (d : ℚ) (h : l ≠ []) : pyMin d l ∈ l := by
  cases l with
  | nil => exact absurd rfl h
  | cons y ys =>
    have hp : pyMin d (y :: ys) = ys.foldl min y := rfl
    rcases foldl_min_mem ys y with h1 | h1
    · rw [hp, h1]
      exact List.mem_cons_self y ys
    · rw [hp]
      exact List.mem_cons_of_mem y h1

/-- C7: after each of the two plane-creating operations the plane sits at the
objects feet: its world Z is exactly the minimum world-space Z over the
bounding-box corners (a lower bound on every corner Z, and attained by one),
and its world X/Y is the objects world translation. -/
theorem plane_sits_at_object_feet (obj : MeshObj) (h : obj.boundBox ≠ []) :
    (make_shadow_plane obj).location.x = obj.matrixWorld.t.x
      ∧ (make_shadow_plane obj).location.y = obj.matrixWorld.t.y
      ∧ (∀ c ∈ world_bbox_corners obj, (make_shadow_plane obj).location.z ≤ c.z)
      ∧ (make_shadow_plane obj).location.z ∈ (world_bbox_corners obj).map V3.z
      ∧ bake_shadow_texture_plane obj = make_shadow_plane obj := by
  have hz : (make_shadow_plane obj).location.z
      = pyMin 0 ((world_bbox_corners obj).map V3.z) := rfl
  have hne : (world_bbox_corners obj).map V3.z ≠ [] := by
    simp [world_bbox_corners, h]
  refine ⟨rfl, rfl, ?_, ?_, rfl⟩
  · intro c hc
    rw [hz]
    exact pyMin_le _ 0 c.z (List.mem_map_of_mem V3.z hc)
  · rw [hz]
    exact pyMin_mem _ 0 hne

/-- A concrete object for the C7 witness: the unit cube translated by
(1, 2, 3) with identity linear part, so the minimum world corner Z is 3. -/
def cubeObj : MeshObj :=
  { name := "Cube"
    boundBox := [⟨0, 0, 0⟩, ⟨0, 0, 1⟩, ⟨0, 1, 0⟩, ⟨0, 1, 1⟩,
                 ⟨1, 0, 0⟩, ⟨1, 0, 1⟩, ⟨1, 1, 0⟩, ⟨1, 1, 1⟩]
    matrixWorld := ⟨⟨1, 0, 0⟩, ⟨0, 1, 0⟩, ⟨0, 0, 1⟩, ⟨1, 2, 3⟩⟩
    dimX := 1
    dimY := 1
    dimZ := 1 }

/-- Witness for C7 at the translated unit cube, the bound instantiated at the
world image of the corner (0, 0, 0). -/
theorem plane_sits_at_object_feet_witness :
    (make_shadow_plane cubeObj).location.x = cubeObj.matrixWorld.t.x
      ∧ (make_shadow_plane cubeObj).location.z
          ≤ (applyAffine cubeObj.matrixWorld ⟨0, 0, 0⟩).z
      ∧ (make_shadow_plane cubeObj).location.z ∈ (world_bbox_corners cubeObj).map V3.z
      ∧ bake_shadow_texture_plane cubeObj = make_shadow_plane cubeObj := by
  have h := plane_sits_at_object_feet cubeObj (by simp [cubeObj])
  obtain ⟨hx, _, hle, hmem, heq⟩ := h
  refine ⟨hx, ?_, hmem, heq⟩
  exact hle (applyAffine cubeObj.matrixWorld ⟨0, 0, 0⟩)
    (List.mem_map_of_mem (applyAffine cubeObj.matrixWorld) (by simp [cubeObj]))

/-! ## Pivot relocation (fix_origin, lines 65-111)

fix_origin computes the centroid of the bottom-face bounding-box corners
(those within 1e-6 of the minimum local Z), moves the 3D cursor there, runs
origin_set(type=ORIGIN_CURSOR), sets obj.location to (0,0,0), restores the
cursor, and runs transform_apply(scale=True).

Host operator semantics modelled from the Blender API: origin_set with the
cursor moves the objects origin to the cursor point, offsetting the local
vertices so world geometry is unchanged; transform_apply(scale=True)
multiplies the local vertices by the object scale and resets the scale to
(1,1,1). The world transform of the object is modelled as a translation
composed with a per-axis scale (identity rotation), which the claims range
over. The guard at line 67 reads obj.type BEFORE testing obj == None, so a
missing object raises AttributeError instead of returning.
-/

def vadd (a b : V3) : V3 :=
  ⟨a.x + b.x, a.y + b.y, a.z + b.z⟩

def vsub (a b : V3) : V3 :=
  ⟨a.x - b.x, a.y - b.y, a.z - b.z⟩

/-- Componentwise product, the action of a per-axis scale on a vector. -/
def vmulc (s v : V3) : V3 :=
  ⟨s.x * v.x, s.y * v.y, s.z * v.z⟩

def vdivNat (v : V3) (n : ℕ) : V3 :=
  ⟨v.x / n, v.y / n, v.z / n⟩

/-- An object as fix_origin reads and mutates it: its host type string, its
local mesh vertices, and its world transform split into location and
per-axis scale. -/
structure FixObj where
  otype : String
  verts : List V3
  location : V3
  scale : V3
deriving DecidableEq

/-- obj.bound_box: the 8 corners of the axis-aligned local bounding box of
the mesh vertices (all min/max combinations per axis). -/
def fix_bound_box (o : FixObj) : List V3 :=
  let xs := o.verts.map V3.x
  let ys := o.verts.map V3.y
  let zs := o.verts.map V3.z
  let x0 := pyMin 0 xs
  let x1 := pyMax 0 xs
  let y0 := pyMin 0 ys
  let y1 := pyMax 0 ys
  let z0 := pyMin 0 zs
  let z1 := pyMax 0 zs
  [⟨x0, y0, z0⟩, ⟨x0, y0, z1⟩, ⟨x0, y1, z0⟩, ⟨x0, y1, z1⟩,
   ⟨x1, y0, z0⟩, ⟨x1, y0, z1⟩, ⟨x1, y1, z0⟩, ⟨x1, y1, z1⟩]

/-- Lines 78-84: the centroid of the bounding-box corners whose Z is within
eps = 1e-6 of the minimum Z (with the exact-equality fallback of line 83). -/
def bottom_center_local (o : FixObj) : V3 :=
  let eps : ℚ := 1/1000000
  let bb_local := fix_bound_box o
  let min_z := pyMin 0 (bb_local.map V3.z)
  let bottom_verts := bb_local.filter (fun v => |v.z - min_z| ≤ eps)
  let bottom_verts2 :=
    if bottom_verts = [] then bb_local.filter (fun v => v.z = min_z) else bottom_verts
  vdivNat (bottom_verts2.foldl vadd ⟨0, 0, 0⟩) bottom_verts2.length

/-- The mesh branch of fix_origin (lines 70-111): origin_set to the world
image of the bottom center (location becomes that point, vertices shift by
its local negation), then location := (0,0,0), then transform_apply(scale=True)
bakes the scale into the vertices and resets it. The cursor is saved and
restored (lines 93, 106) and is not part of the object state. -/
def fix_origin_mesh (o : FixObj) : FixObj :=
  let center_local := bottom_center_local o
  { o with
    verts := o.verts.map (fun v => vmulc o.scale (vsub v center_local))
    location := ⟨0, 0, 0⟩
    scale := ⟨1, 1, 1⟩ }

/-- fix_origin (lines 65-111). Line 67 reads obj.type first: on None the
attribute access raises AttributeError before the obj == None test can
return, so the None case is an error, not a no-op; a present non-mesh object
returns unchanged. -/
def fix_origin (obj : Option FixObj) : Except String FixObj :=
  match obj with
  | none => Except.error "AttributeError"
  | some o =>
    if o.otype ≠ "MESH" ∨ (some o : Option FixObj) = none then Except.ok o
    else Except.ok (fix_origin_mesh o)

/-- C8: the claim says fix_origin is a silent no-op both for a non-mesh
object and for an absent (None) object. The code keeps the non-mesh half (a
present non-mesh object is returned untouched, no state change) but breaks
the None half: obj.type is evaluated before the None comparison, so
fix_origin(None) raises AttributeError. -/
theorem fix_origin_none_raises (o : FixObj) (h : o.otype ≠ "MESH") :
    fix_origin none = Except.error "AttributeError"
      ∧ fix_origin (some o) = Except.ok o := by
  refine ⟨rfl, ?_⟩
  simp [fix_origin, h]

/-- Witness for C8 at a light object (otype LIGHT). -/
theorem fix_origin_none_raises_witness :
    fix_origin none = Except.error "AttributeError"
      ∧ fix_origin (some ⟨"LIGHT", [], ⟨0, 0, 0⟩, ⟨1, 1, 1⟩⟩)
          = Except.ok ⟨"LIGHT", [], ⟨0, 0, 0⟩, ⟨1, 1, 1⟩⟩ :=
  fix_origin_none_raises ⟨"LIGHT", [], ⟨0, 0, 0⟩, ⟨1, 1, 1⟩⟩ (by simp)

/-- A mesh with a non-unit scale for the C9 counterexample: two local
vertices (0,0,0) and (1,1,1), world scale (2,2,2). Its bottom-face center is
(1/2, 1/2, 0), and fix_origin leaves the local vertices at
2 * (v - (1/2, 1/2, 0)), which is not a uniform shift of the originals. -/
def scaledObj : FixObj :=
  { otype := "MESH"
    verts := [⟨0, 0, 0⟩, ⟨1, 1, 1⟩]
    location := ⟨0, 0, 0⟩
    scale := ⟨2, 2, 2⟩ }

/-- C9 counterexample: on scaledObj the final local vertices are
[(-1,-1,0), (1,1,2)]; no single offset d turns the original vertices
[(0,0,0), (1,1,1)] into them, so the mesh data was modified beyond a uniform
origin shift (transform_apply(scale=True) rescaled it). -/
theorem fix_origin_rescales_mesh_data :
    (fix_origin_mesh scaledObj).verts = [⟨-1, -1, 0⟩, ⟨1, 1, 2⟩]
      ∧ ¬ ∃ d : V3, (fix_origin_mesh scaledObj).verts
          = scaledObj.verts.map (fun v => vsub v d) := by
  have hbc : bottom_center_local scaledObj = ⟨1/2, 1/2, 0⟩ := by
    have hbb : fix_bound_box scaledObj =
        [⟨0, 0, 0⟩, ⟨0, 0, 1⟩, ⟨0, 1, 0⟩, ⟨0, 1, 1⟩,
         ⟨1, 0, 0⟩, ⟨1, 0, 1⟩, ⟨1, 1, 0⟩, ⟨1, 1, 1⟩] := by
      norm_num [fix_bound_box, scaledObj, pyMin, pyMax, min_def, max_def]
    rw [bottom_center_local, hbb]
    norm_num [pyMin, min_def, List.filter, vadd, vdivNat, abs_le]
  have hv : (fix_origin_mesh scaledObj).verts = [⟨-1, -1, 0⟩, ⟨1, 1, 2⟩] := by
    show scaledObj.verts.map
        (fun v => vmulc scaledObj.scale (vsub v (bottom_center_local scaledObj)))
        = [⟨-1, -1, 0⟩, ⟨1, 1, 2⟩]
    rw [hbc]
    norm_num [scaledObj, vmulc, vsub]
  refine ⟨hv, ?_⟩
  rintro ⟨d, hd⟩
  rw [hv] at hd
  have hd2 : [(⟨-1, -1, 0⟩ : V3), ⟨1, 1, 2⟩] = [vsub ⟨0, 0, 0⟩ d, vsub ⟨1, 1, 1⟩ d] := by
    simpa [scaledObj] using hd
  have h1 := congrArg (fun l => (l.getD 0 ⟨0, 0, 0⟩).x) hd2
  have h2 := congrArg (fun l => (l.getD 1 ⟨0, 0, 0⟩).x) hd2
  simp only [List.getD, vsub] at h1 h2
  norm_num at h1 h2
  linarith

theorem vmulc_one (v : V3) : vmulc ⟨1, 1, 1⟩ v = v := by
  simp [vmulc]

/-- C9 amended: fix_origin maps each local vertex v to scale * (v - c), with
c the centroid of the bottom bounding-box corners, then zeroes the location
and resets the scale; so only for an object whose scale is already (1,1,1) is
the local mesh data changed by nothing beyond the uniform origin shift by c.
(The object is also moved to the world origin, so its world geometry is
translated, not left in place, unless the bottom center already sat there.) -/
theorem fix_origin_unit_scale_uniform_shift (o : FixObj)
    (h1 : o.otype = "MESH") (h2 : o.scale = ⟨1, 1, 1⟩) :
    fix_origin (some o) = Except.ok
      { otype := o.otype
        verts := o.verts.map (fun v => vsub v (bottom_center_local o))
        location := ⟨0, 0, 0⟩
        scale := ⟨1, 1, 1⟩ } := by
  have hmesh : ¬ (o.otype ≠ "MESH" ∨ (some o : Option FixObj) = none) := by
    simp [h1]
  simp only [fix_origin, hmesh, if_false, fix_origin_mesh, h2, vmulc_one]

/-- Witness for C9 amended: a unit-scale mesh whose two vertices sit at
(0,0,0) and (2,0,0); the bottom center is (1,0,0) and both vertices shift
uniformly by it. -/
theorem fix_origin_unit_scale_uniform_shift_witness :
    fix_origin (some ⟨"MESH", [⟨0, 0, 0⟩, ⟨2, 0, 0⟩], ⟨5, 5, 5⟩, ⟨1, 1, 1⟩⟩) = Except.ok
      { otype := (⟨"MESH", [⟨0, 0, 0⟩, ⟨2, 0, 0⟩], ⟨5, 5, 5⟩, ⟨1, 1, 1⟩⟩ : FixObj).otype
        verts := (⟨"MESH", [⟨0, 0, 0⟩, ⟨2, 0, 0⟩], ⟨5, 5, 5⟩, ⟨1, 1, 1⟩⟩ : FixObj).verts.map
          (fun v => vsub v (bottom_center_local ⟨"MESH", [⟨0, 0, 0⟩, ⟨2, 0, 0⟩], ⟨5, 5, 5⟩, ⟨1, 1, 1⟩⟩))
        location := ⟨0, 0, 0⟩
        scale := ⟨1, 1, 1⟩ } :=
  fix_origin_unit_scale_uniform_shift ⟨"MESH", [⟨0, 0, 0⟩, ⟨2, 0, 0⟩], ⟨5, 5, 5⟩, ⟨1, 1, 1⟩⟩ rfl rfl

/-! ## Light ring synthesis (create_x_suns_around, lines 273-305)

The loop places numLights sun lights around the object. Per light i:
angle_increment = 360 / numLights; the random offset is 0 when the symmetric
toggle is on and otherwise uniform(-angle_increment/4, +angle_increment/4)
(modelled as an injected jitter sequence whose values the uniform contract
bounds by the half-width); theta = radians(i * angle_increment + offset);
the light sits at obj.location.xy plus (max(dimX, dimY) + distance) times
(cos theta, sin theta), at Z = max world bounding-box Z + 5. Trigonometry
forces this section over the reals, so its definitions are noncomputable;
the light rotation (a track-to quaternion) carries no claim and is omitted.
-/

/-- Python max over a real list, empty-case convention as pyMin. -/
def pyMaxR (d : ℝ) : List ℝ → ℝ
  | [] => d
  | x :: xs => xs.foldl max x

/-- math.radians: degrees to radians. -/
noncomputable def radiansOf (x : ℝ) : ℝ :=
  x * Real.pi / 180

/-- The scene properties the loop reads: numLights, the symmetric-jitter
toggle (property name simetric in the source), the light power and the light
angular softness in degrees. -/
structure SunsScene where
  numLights : ℕ
  simetric : Bool
  strength : ℝ
  angleDeg : ℝ

/-- The object data the loop reads: obj.location.x/y, obj.dimensions.x/y and
the Z coordinates of the world bounding-box corners (bbox_min_max_z takes
their max). -/
structure SunObj where
  locX : ℝ
  locY : ℝ
  dimX : ℝ
  dimY : ℝ
  worldCornerZs : List ℝ

/-- One generated sun light: its location, the azimuth (in degrees) used to
place it, its power and its angular softness (in radians). -/
structure SunLight where
  x : ℝ
  y : ℝ
  z : ℝ
  azimuthDeg : ℝ
  energy : ℝ
  softness : ℝ

/-- create_x_suns_around (lines 273-305). jitter is the injected random
source standing for random.uniform(-angle_increment/4, +angle_increment/4),
consulted only when the symmetric toggle is off. -/
noncomputable def create_x_suns_around (scene : SunsScene) (jitter : ℕ → ℝ)
    (obj : SunObj) (distance : ℝ) : List SunLight :=
  let obj_distance := if obj.dimX > obj.dimY then obj.dimX else obj.dimY
  let angle_increment : ℝ := 360 / (scene.numLights : ℝ)
  (List.range scene.numLights).map (fun i =>
    let angle_random_offset := if scene.simetric then 0 else jitter i
    let angle_deg := (i : ℝ) * angle_increment + angle_random_offset
    let angle_rad := radiansOf angle_deg
    { x := obj.locX + (obj_distance + distance) * Real.cos angle_rad
      y := obj.locY + (obj_distance + distance) * Real.sin angle_rad
      z := pyMaxR 0 obj.worldCornerZs + 5
      azimuthDeg := angle_deg
      energy := scene.strength
      softness := radiansOf scene.angleDeg })

/-- The i-th generated light (out-of-range index gives a zero dummy). -/
noncomputable def sunAt (scene : SunsScene) (jitter : ℕ → ℝ) (obj : SunObj)
    (distance : ℝ) (i : ℕ) : SunLight :=
  (create_x_suns_around scene jitter obj distance).getD i ⟨0, 0, 0, 0, 0, 0⟩

theorem sunAt_eq (scene : SunsScene) (jitter : ℕ → ℝ) (obj : SunObj)
    (distance : ℝ) (i : ℕ) (hi : i < scene.numLights) :
    sunAt scene jitter obj distance i =
      { x := obj.locX + ((if obj.dimX > obj.dimY then obj.dimX else obj.dimY) + distance)
            * Real.cos (radiansOf ((i : ℝ) * (360 / (scene.numLights : ℝ))
                + (if scene.simetric then 0 else jitter i)))
        y := obj.locY + ((if obj.dimX > obj.dimY then obj.dimX else obj.dimY) + distance)
            * Real.sin (radiansOf ((i : ℝ) * (360 / (scene.numLights : ℝ))
                + (if scene.simetric then 0 else jitter i)))
        z := pyMaxR 0 obj.worldCornerZs + 5
        azimuthDeg := (i : ℝ) * (360 / (scene.numLights : ℝ))
            + (if scene.simetric then 0 else jitter i)
        energy := scene.strength
        softness := radiansOf scene.angleDeg } := by
  unfold sunAt create_x_suns_around
  rw [List.getD_eq_getElem?_getD, List.getElem?_map, List.getElem?_range hi]
  rfl

theorem ite_gt_eq_max (a b : ℝ) : (if a > b then a else b) = max a b := by
  rcases le_or_lt a b with h | h
  · simp [not_lt.mpr h, max_eq_right h]
  · simp [h, max_eq_left (le_of_lt h)]

/-- C5: for any light count N in [1,16], the loop generates exactly N lights;
with the symmetric toggle on, light i has azimuth exactly i * 360/N degrees
(zero jitter); with it off, the azimuth differs from i * 360/N by at most
360/(4N) degrees (the uniform bound); every light sits at the objects XY
plus (max(dimX, dimY) + ringDistance) * (cos theta, sin theta) with theta
the azimuth in radians, and at Z = max world bounding-box Z + 5. -/
theorem sun_ring_layout (scene : SunsScene) (jitter : ℕ → ℝ) (obj : SunObj)
    (distance : ℝ)
    (_hN : 1 ≤ scene.numLights ∧ scene.numLights ≤ 16)
    (hj : ∀ i, |jitter i| ≤ 360 / (4 * (scene.numLights : ℝ))) :
    (create_x_suns_around scene jitter obj distance).length = scene.numLights
      ∧ ∀ i, i < scene.numLights →
          (scene.simetric = true →
              (sunAt scene jitter obj distance i).azimuthDeg
                = (i : ℝ) * (360 / (scene.numLights : ℝ)))
          ∧ (scene.simetric = false →
              |(sunAt scene jitter obj distance i).azimuthDeg
                  - (i : ℝ) * (360 / (scene.numLights : ℝ))|
                ≤ 360 / (4 * (scene.numLights : ℝ)))
          ∧ (sunAt scene jitter obj distance i).x
              = obj.locX + (max obj.dimX obj.dimY + distance)
                * Real.cos (radiansOf ((sunAt scene jitter obj distance i).azimuthDeg))
          ∧ (sunAt scene jitter obj distance i).y
              = obj.locY + (max obj.dimX obj.dimY + distance)
                * Real.sin (radiansOf ((sunAt scene jitter obj distance i).azimuthDeg))
          ∧ (sunAt scene jitter obj distance i).z = pyMaxR 0 obj.worldCornerZs + 5 := by
  constructor
  · simp [create_x_suns_around]
  · intro i hi
    rw [sunAt_eq scene jitter obj distance i hi]
    refine ⟨?_, ?_, ?_, ?_, rfl⟩
    · intro hs
      simp [hs]
    · intro hs
      simp only [hs, if_false, add_sub_cancel_left]
      exact hj i
    · rw [ite_gt_eq_max]
    · rw [ite_gt_eq_max]

/-- Witness scene for C5: four lights, symmetric on. -/
noncomputable def scene4 : SunsScene :=
  { numLights := 4, simetric := true, strength := 5, angleDeg := 133/10 }

/-- Witness object for C5: unit footprint at the origin, top at Z = 2. -/
noncomputable def sunObj0 : SunObj :=
  { locX := 0, locY := 0, dimX := 1, dimY := 1, worldCornerZs := [0, 2] }

/-- Witness for C5 at scene4 and sunObj0 with the all-zero jitter source,
read off at light i = 1: azimuth 1 * 360/4 and elevation maxZ + 5. -/
theorem sun_ring_layout_witness :
    (create_x_suns_around scene4 (fun _ => 0) sunObj0 1).length = scene4.numLights
      ∧ (sunAt scene4 (fun _ => 0) sunObj0 1 1).azimuthDeg
          = ((1 : ℕ) : ℝ) * (360 / (scene4.numLights : ℝ))
      ∧ (sunAt scene4 (fun _ => 0) sunObj0 1 1).z = pyMaxR 0 sunObj0.worldCornerZs + 5 := by
  have h := sun_ring_layout scene4 (fun _ => 0) sunObj0 1
    (by constructor <;> norm_num [scene4])
    (by intro i; norm_num [scene4])
  obtain ⟨hlen, hall⟩ := h
  obtain ⟨haz, _, _, _, hz⟩ := hall 1 (by norm_num [scene4])
  exact ⟨hlen, haz rfl, hz⟩

/-! ## Export orchestrators

OBJECT_OT_export_obj_glb.execute (lines 536-582), export_obj (lines 380-399)
and OBJECT_OT_export_collection_glb.execute (lines 609-644). The scene is
modelled as the list of the object entities it holds; the pipeline only ever
adds and removes its own sun lights and shadow plane, compared by identity as
bpy.data.objects.remove removes by reference. The bake call (inside
make_shadow_plane, after the plane is created) and the glTF export call are
external operations that can raise; their outcomes are injected as flags.
There is no try/finally around them in the source.
-/

/-- An object entity in the host scene: a pre-existing user object, the sun
light created in loop iteration i (named Shadow_Sun_(i+1) in the source), or
the shadow plane generated for the named target. -/
inductive SceneObj where
  | user (name : String)
  | sun (i : ℕ)
  | shadowPlane (owner : String)
deriving DecidableEq

/-- Operator outcomes: the operator return sets FINISHED and CANCELLED, plus
RAISED for an exception propagating out of an external call. -/
inductive OpResult where
  | FINISHED
  | CANCELLED
  | RAISED
deriving DecidableEq

/-- The light entities create_x_suns_around links into the scene. -/
def sunObjs (n : ℕ) : List SceneObj :=
  (List.range n).map SceneObj.sun

/-- Everything OBJECT_OT_export_obj_glb.execute reads beyond the scene
contents: the target object (None or its name and host type), whether
os.path.isdir accepts the destination, the light count, and the outcomes of
the two fallible external calls. -/
structure ExportEnv where
  targetObj : Option (String × String)
  pathValid : Bool
  numLights : ℕ
  bakeOk : Bool
  exportOk : Bool

/-- OBJECT_OT_export_obj_glb.execute (lines 536-582). Order as in the
source: the None, path and mesh-type checks cancel before any creation; then
the lights are created, then the plane (make_shadow_plane, which bakes after
creating the plane: a bake exception leaves lights and plane in the scene);
then the glTF export (an exception likewise leaves them); only on success
are the plane and each light removed. -/
def export_obj_glb_execute (env : ExportEnv) (scene : List SceneObj) :
    OpResult × List SceneObj :=
  match env.targetObj with
  | none => (OpResult.CANCELLED, scene)
  | some (tname, ttype) =>
    if env.pathValid = false then (OpResult.CANCELLED, scene)
    else if ttype ≠ "MESH" then (OpResult.CANCELLED, scene)
    else
      let s1 := scene ++ sunObjs env.numLights
      let s2 := s1 ++ [SceneObj.shadowPlane tname]
      if env.bakeOk = false then (OpResult.RAISED, s2)
      else if env.exportOk = false then (OpResult.RAISED, s2)
      else
        let s3 := s2.erase (SceneObj.shadowPlane tname)
        let s4 := (sunObjs env.numLights).foldl (fun acc l => acc.erase l) s3
        (OpResult.FINISHED, s4)

/-- C3 counterexample: target Table is a mesh, the path is valid, the bake
succeeds, but the export call raises; the operation ends RAISED with the
generated shadow plane and sun light still in the scene — cleanup is not
unconditional. -/
theorem export_glb_leaves_plane_on_export_failure :
    (export_obj_glb_execute
        ⟨some ("Table", "MESH"), true, 1, true, false⟩ [SceneObj.user "Table"]).1
        = OpResult.RAISED
      ∧ SceneObj.shadowPlane "Table" ∈ (export_obj_glb_execute
          ⟨some ("Table", "MESH"), true, 1, true, false⟩ [SceneObj.user "Table"]).2
      ∧ SceneObj.sun 0 ∈ (export_obj_glb_execute
          ⟨some ("Table", "MESH"), true, 1, true, false⟩ [SceneObj.user "Table"]).2 := by
  refine ⟨rfl, ?_, ?_⟩
  · show SceneObj.shadowPlane "Table" ∈
      [SceneObj.user "Table"] ++ sunObjs 1 ++ [SceneObj.shadowPlane "Table"]
    simp
  · show SceneObj.sun 0 ∈
      [SceneObj.user "Table"] ++ sunObjs 1 ++ [SceneObj.shadowPlane "Table"]
    simp [sunObjs]

theorem erase_append_singleton {α : Type} [DecidableEq α] (s : List α) (x : α)
    (hx : x ∉ s) : (s ++ [x]).erase x = s := by
  rw [List.erase_append_right _ hx]
  simp

theorem foldl_erase_append {α : Type} [DecidableEq α] (L : List α) :
    ∀ s : List α, (∀ l ∈ L, l ∉ s) → L.Nodup →
      L.foldl (fun acc x => acc.erase x) (s ++ L) = s := by
  induction L with
  | nil => intro s _ _; simp
  | cons x xs ih =>
    intro s hs hnd
    have hx : x ∉ s := hs x (List.mem_cons_self x xs)
    have hstep : (s ++ x :: xs).erase x = s ++ xs := by
      rw [List.erase_append_right _ hx]
      simp
    have hfold : (x :: xs).foldl (fun acc y => acc.erase y) (s ++ x :: xs)
        = xs.foldl (fun acc y => acc.erase y) ((s ++ x :: xs).erase x) := rfl
    rw [hfold, hstep]
    exact ih s (fun l hl => hs l (List.mem_cons_of_mem x hl)) (List.Nodup.of_cons hnd)

theorem sunObjs_nodup (n : ℕ) : (sunObjs n).Nodup :=
  (List.nodup_range n).map (fun _ _ h => SceneObj.sun.inj h)

/-- C3 amended: the generated shadow plane and lights are removed at the end
of the successful path — when the bake and the export both return, the scene
is restored exactly (given the generated entities were fresh). When either
external call raises, the exception propagates before the removal code runs
(there is no try/finally), and the plane and lights remain in the scene. -/
theorem export_glb_cleanup_on_success (env : ExportEnv) (scene : List SceneObj)
    (tname : String)
    (htarget : env.targetObj = some (tname, "MESH"))
    (hpath : env.pathValid = true)
    (hbake : env.bakeOk = true)
    (hexport : env.exportOk = true)
    (hfresh_plane : SceneObj.shadowPlane tname ∉ scene)
    (hfresh_suns : ∀ l ∈ sunObjs env.numLights, l ∉ scene) :
    export_obj_glb_execute env scene = (OpResult.FINISHED, scene) := by
  have hplane_not_sun : SceneObj.shadowPlane tname ∉ scene ++ sunObjs env.numLights := by
    intro hmem
    rcases List.mem_append.mp hmem with h | h
    · exact hfresh_plane h
    · rcases List.mem_map.mp h with ⟨i, _, hi⟩
      cases hi
  have herase : (scene ++ sunObjs env.numLights ++ [SceneObj.shadowPlane tname]).erase
      (SceneObj.shadowPlane tname) = scene ++ sunObjs env.numLights :=
    erase_append_singleton _ _ hplane_not_sun
  have hfold : (sunObjs env.numLights).foldl (fun acc l => acc.erase l)
      (scene ++ sunObjs env.numLights) = scene :=
    foldl_erase_append (sunObjs env.numLights) scene hfresh_suns (sunObjs_nodup _)
  have hmesh : ¬ ("MESH" ≠ "MESH") := by simp
  simp only [export_obj_glb_execute, htarget, hpath, hbake, hexport, hmesh,
    Bool.true_eq_false, if_false]
  rw [herase, hfold]

/-- Witness for C3 amended: one pre-existing user object, one light, both
external calls succeed; the scene comes back unchanged. -/
theorem export_glb_cleanup_on_success_witness :
    export_obj_glb_execute ⟨some ("Table", "MESH"), true, 1, true, true⟩
        [SceneObj.user "Table"] = (OpResult.FINISHED, [SceneObj.user "Table"]) :=
  export_glb_cleanup_on_success ⟨some ("Table", "MESH"), true, 1, true, true⟩
    [SceneObj.user "Table"] "Table" rfl rfl rfl rfl (by simp)
    (by intro l hl; simp [sunObjs] at hl; simp [hl.symm])

/-! ## Collection export (OBJECT_OT_export_collection_glb.execute, lines 609-644)

After the collection, path and non-emptiness checks, the member list is
filtered to mesh-typed objects (line 622) and the loop runs export_obj on
each. Inside the loop the only validation left is the type re-check of line
632 (unreachable after the filter); the height-range check against the
MEASUREMENTS preset (lines 636-640) is commented out in the source. The call
to export_obj is not wrapped in try/except, so an exception from a members
bake or export propagates and ends the loop.
-/

/-- One member of the chosen collection: name, host object type and world
height (dimensions.z, what the disabled height validation would read). -/
structure Member where
  name : String
  otype : String
  dimZ : ℚ
deriving DecidableEq

/-- The MEASUREMENTS table (lines 41-47): named height ranges in meters. -/
def measurements (key : String) : Option (ℚ × ℚ) :=
  if key = "Table" then some (71/100, 76/100)
  else if key = "Chair" then some (45/100, 1/2)
  else if key = "Hanger" then some (3/2, 9/5)
  else if key = "High table" then some (1, 107/100)
  else if key = "FREE (Only for exceptions)" then some (0, 9999)
  else none

/-- The disabled per-member validation of lines 636-640 (and the panel check
of line 695): true when the members height falls outside the selected
ranges bounds. Used here only to state which member fails validation. -/
def heightOutOfRange (key : String) (z : ℚ) : Bool :=
  match measurements key with
  | some (lo, hi) => decide (z < lo ∨ hi < z)
  | none => false

/-- The outcome of the collection operator: its return status, the GLB files
written (one per successful export_obj call, named member.glb), and how many
operator errors were reported. -/
structure CollOutcome where
  result : OpResult
  files : List String
  errors : ℕ
deriving DecidableEq

/-- The loop of lines 631-641 over the filtered member list. raises injects
whether the external bake/export inside export_obj raises for that member;
an unhandled exception ends the operator. The line-632 type check reports and
continues; the height check is absent (commented out). -/
def coll_loop (raises : String → Bool) : List Member → List String → ℕ → CollOutcome
  | [], files, errs => ⟨OpResult.FINISHED, files, errs⟩
  | m :: rest, files, errs =>
    if m.otype ≠ "MESH" then coll_loop raises rest files (errs + 1)
    else if raises m.name then ⟨OpResult.RAISED, files, errs⟩
    else coll_loop raises rest (files ++ [m.name ++ ".glb"]) errs

/-- OBJECT_OT_export_collection_glb.execute (lines 609-644): the three
precondition checks each report one error and cancel; then the mesh filter
of line 622 and the loop. -/
def export_collection_glb_execute (collectionPresent : Bool) (pathValid : Bool)
    (members : List Member) (raises : String → Bool) : CollOutcome :=
  if collectionPresent = false then ⟨OpResult.CANCELLED, [], 1⟩
  else if pathValid = false then ⟨OpResult.CANCELLED, [], 1⟩
  else if members.length = 0 then ⟨OpResult.CANCELLED, [], 1⟩
  else
    let meshes := members.filter (fun m => m.otype = "MESH")
    coll_loop raises meshes [] 0

/-- The three mesh members of the C4 scenario: B has height 2, outside the
Table range 0.71 to 0.76, so B is the one member that fails the validation
the claim describes. No export raises. -/
def memberA : Member := ⟨"A", "MESH", 73/100⟩

def memberB : Member := ⟨"B", "MESH", 2⟩

def memberC : Member := ⟨"C", "MESH", 74/100⟩

/-- C4 counterexample: with three mesh members of which exactly one (B, at
height 2) fails the Table height validation, the operator exports all three
members and reports no error — not two files and one error — because the
height check is commented out and the loops type check is unreachable after
the mesh filter. -/
theorem collection_export_skips_no_member :
    heightOutOfRange "Table" memberB.dimZ = true
      ∧ heightOutOfRange "Table" memberA.dimZ = false
      ∧ heightOutOfRange "Table" memberC.dimZ = false
      ∧ export_collection_glb_execute true true [memberA, memberB, memberC] (fun _ => false)
          = ⟨OpResult.FINISHED, ["A.glb", "B.glb", "C.glb"], 0⟩
      ∧ ¬ ((export_collection_glb_execute true true [memberA, memberB, memberC]
              (fun _ => false)).files.length = 2
            ∧ (export_collection_glb_execute true true [memberA, memberB, memberC]
                (fun _ => false)).errors = 1) := by
  have hB : heightOutOfRange "Table" memberB.dimZ = true := by
    norm_num [heightOutOfRange, measurements, memberB]
  have hA : heightOutOfRange "Table" memberA.dimZ = false := by
    norm_num [heightOutOfRange, measurements, memberA]
  have hC : heightOutOfRange "Table" memberC.dimZ = false := by
    norm_num [heightOutOfRange, measurements, memberC]
  have hrun : export_collection_glb_execute true true [memberA, memberB, memberC]
      (fun _ => false) = ⟨OpResult.FINISHED, ["A.glb", "B.glb", "C.glb"], 0⟩ := by
    simp [export_collection_glb_execute, coll_loop, memberA, memberB, memberC,
      List.filter]
  refine ⟨hB, hA, hC, hrun, ?_⟩
  rw [hrun]
  simp

theorem coll_loop_characterization (raises : String → Bool) (L : List Member)
    (hL : ∀ m ∈ L, m.otype = "MESH") :
    ∀ (files : List String) (errs : ℕ),
      coll_loop raises L files errs =
        ⟨if L.all (fun m => !raises m.name) then OpResult.FINISHED else OpResult.RAISED,
         files ++ (L.takeWhile (fun m => !raises m.name)).map (fun m => m.name ++ ".glb"),
         errs⟩ := by
  induction L with
  | nil => intro files errs; simp [coll_loop]
  | cons m rest ih =>
    intro files errs
    have hm : m.otype = "MESH" := hL m (List.mem_cons_self m rest)
    have hrest : ∀ q ∈ rest, q.otype = "MESH" := fun q hq => hL q (List.mem_cons_of_mem m hq)
    by_cases hr : raises m.name
    · simp [coll_loop, hm, hr, List.takeWhile]
    · have step : coll_loop raises (m :: rest) files errs
          = coll_loop raises rest (files ++ [m.name ++ ".glb"]) errs := by
        simp [coll_loop, hm, hr]
      rw [step, ih hrest]
      simp [List.takeWhile, hr]

/-- C4 amended: the collection loop performs no per-member validation skip —
the height-range check is disabled and the type check cannot fire after the
mesh filter — so the operator exports every mesh member up to the first whose
export raises (all of them, three files for three mesh members, when none
raises), reports zero errors, and an unhandled export exception ends the
remaining iterations with status RAISED instead of continuing. -/
theorem export_collection_behavior (collectionPresent pathValid : Bool)
    (members : List Member) (raises : String → Bool)
    (hcol : collectionPresent = true) (hpath : pathValid = true)
    (hne : members ≠ []) :
    export_collection_glb_execute collectionPresent pathValid members raises =
      ⟨if (members.filter (fun m => m.otype = "MESH")).all (fun m => !raises m.name)
          then OpResult.FINISHED else OpResult.RAISED,
       ((members.filter (fun m => m.otype = "MESH")).takeWhile
          (fun m => !raises m.name)).map (fun m => m.name ++ ".glb"),
       0⟩ := by
  subst hcol
  subst hpath
  have hlen : ¬ members.length = 0 := by
    simpa [List.length_eq_zero] using hne
  have hfilter : ∀ m ∈ members.filter (fun q => q.otype = "MESH"), m.otype = "MESH" := by
    intro m hm
    have := List.of_mem_filter hm
    simpa using this
  simp only [export_collection_glb_execute, Bool.true_eq_false, if_false, hlen]
  rw [coll_loop_characterization raises _ hfilter [] 0]
  simp

/-- Witness for C4 amended at the three-member scenario with no raising
export: all three mesh members are exported and no error is reported. -/
theorem export_collection_behavior_witness :
    export_collection_glb_execute true true [memberA, memberB, memberC] (fun _ => false) =
      ⟨if ([memberA, memberB, memberC].filter (fun m => m.otype = "MESH")).all
          (fun m => !(fun _ => false) m.name)
          then OpResult.FINISHED else OpResult.RAISED,
       (([memberA, memberB, memberC].filter (fun m => m.otype = "MESH")).takeWhile
          (fun m => !(fun _ => false) m.name)).map (fun m => m.name ++ ".glb"),
       0⟩ :=
  export_collection_behavior true true [memberA, memberB, memberC] (fun _ => false)
    rfl rfl (by simp)
